import Mathlib

/-!
Shallow embedding of the multi-host connection orchestrator
(`src/tokio-postgres/src/connect.rs`) and of the OpenSSL channel-binding
adapter (`src/postgres-openssl/src/lib.rs`) of rust-postgres.

External collaborators (socket connector, raw protocol handshake, the
simple-query stream, and the TLS factory supplied by the caller) are
modelled as an oracle environment `Env`: the orchestrator's control flow
is translated line by line from the source, while each external call is a
field of `Env`.
-/

namespace RustPostgres

/-- Rust `config::Host`: a TCP hostname or a unix-socket path. -/
inductive Host
  | tcp (h : String)
  | unix (p : String)
deriving DecidableEq

/-- Rust `config::TargetSessionAttrs`. -/
inductive TargetSessionAttrs
  | any
  | readWrite
deriving DecidableEq

/-- Opaque handles for external values: raw sockets, client handles,
connection drivers, TLS connectors and factory errors are all opaque to
the orchestrator, so a `Nat` tag models each. -/
abbrev Socket := Nat

abbrev Client := Nat

abbrev Connection := Nat

abbrev TlsConn := Nat

abbrev FactoryErr := Nat

/-- Rust `std::io::ErrorKind`, only the variants the source constructs. -/
inductive IoErrorKind
  | permissionDenied
  | otherKind (n : Nat)
deriving DecidableEq

/-- Rust `Error`: the orchestrator-level error sum.  `config` is
`Error::config`, `tls` is `Error::tls`, `connectErr` is `Error::connect`
of an `io::Error` with a kind and message, `unexpectedMessage` is
`Error::unexpected_message()`; `ioErr` and `protoErr` stand for the
opaque errors produced by the external socket connector and raw protocol
handshake, and `queryErr` for errors surfaced by the simple-query
stream. -/
inductive Error
  | config (msg : String)
  | tls (e : FactoryErr)
  | connectErr (kind : IoErrorKind) (msg : String)
  | unexpectedMessage
  | ioErr (n : Nat)
  | protoErr (n : Nat)
  | queryErr (n : Nat)
deriving DecidableEq

/-- Rust `Config`: the fields of `Config` the orchestrator reads. -/
structure Config where
  host : List Host
  port : List Nat
  target_session_attrs : TargetSessionAttrs

/-- A `SimpleQueryMessage`: either a row, carrying the outcome of
`row.try_get(0)` (which may itself fail, or yield a NULL column), or any
other message variant (e.g. `CommandComplete`), which the verification
loop skips. -/
inductive SimpleQueryMessage
  | row (col0 : Except Error (Option String))
  | otherMsg

instance : DecidableEq SimpleQueryMessage := fun a b =>
  match a, b with
  | .row c, .row d =>
    match c, d with
    | .ok x, .ok y =>
      if h : x = y then .isTrue (by rw [h]) else .isFalse (by simp [h])
    | .error x, .error y =>
      if h : x = y then .isTrue (by rw [h]) else .isFalse (by simp [h])
    | .ok _, .error _ => .isFalse (by simp)
    | .error _, .ok _ => .isFalse (by simp)
  | .row _, .otherMsg => .isFalse (by simp)
  | .otherMsg, .row _ => .isFalse (by simp)
  | .otherMsg, .otherMsg => .isTrue rfl

instance : DecidableEq (Except Error SimpleQueryMessage) := fun a b =>
  match a, b with
  | .ok x, .ok y =>
    if h : x = y then .isTrue (by rw [h]) else .isFalse (by simp [h])
  | .error x, .error y =>
    if h : x = y then .isTrue (by rw [h]) else .isFalse (by simp [h])
  | .ok _, .error _ => .isFalse (by simp)
  | .error _, .ok _ => .isFalse (by simp)

instance : Inhabited Host := ⟨Host.tcp ""⟩

/-- Oracle environment for the external calls made by the orchestrator.
`makeTls` is the caller-supplied factory's `make_tls_connect`;
`connectSocket` is `connect_socket(idx, config)`; `connectRaw` is
`connect_raw(socket, tls, config, Some(idx))`; `simpleQuery` is the
finite stream of `try_next` outcomes of
`client.simple_query("SHOW transaction_read_only")`, where list
exhaustion models `Ok(None)` and an `Except.error` element models a
stream error propagated by `?`. -/
structure Env where
  makeTls : String → Except FactoryErr TlsConn
  connectSocket : Nat → Except Error Socket
  connectRaw : Socket → TlsConn → Nat → Except Error (Client × Connection)
  simpleQuery : Client → List (Except Error SimpleQueryMessage)

/-- The hostname passed to `make_tls_connect`: the TCP hostname, or `""`
for a unix socket. -/
def hostnameOf : Host → String
  | .tcp h => h
  | .unix _ => ""

/-- The `loop { match rows.try_next().await? { ... } }` body of
`connect_once`: scan the message stream; a stream error propagates; the
first `Row` decides (column 0 equal to `Some("on")` is a permission
error, anything else breaks out successfully; a `try_get` error
propagates); non-row messages are skipped; stream exhaustion is
`Error::unexpected_message()`. -/
def check_read_only : List (Except Error SimpleQueryMessage) → Except Error Unit
  | [] => .error Error.unexpectedMessage
  | .error e :: _ => .error e
  | .ok (.row col0) :: _ =>
    match col0 with
    | .error e => .error e
    | .ok v =>
      if v = some "on" then
        .error (Error.connectErr IoErrorKind.permissionDenied
          "database does not allow writes")
      else
        .ok ()
  | .ok .otherMsg :: rest => check_read_only rest

/-- Rust `connect_once(idx, tls, config)`: socket connect, raw protocol
handshake, then — only when `target_session_attrs` is `ReadWrite` — the
`SHOW transaction_read_only` verification. -/
def connect_once (env : Env) (idx : Nat) (tls : TlsConn) (cfg : Config) :
    Except Error (Client × Connection) :=
  match env.connectSocket idx with
  | .error e => .error e
  | .ok socket =>
    match env.connectRaw socket tls idx with
    | .error e => .error e
    | .ok (client, connection) =>
      if cfg.target_session_attrs = TargetSessionAttrs.readWrite then
        match check_read_only (env.simpleQuery client) with
        | .error e => .error e
        | .ok _ => .ok (client, connection)
      else
        .ok (client, connection)

/-- Result of `connect`: success, an error, or the panic of
`error.unwrap()` when the loop falls through with `error = None`. -/
inductive ConnectResult
  | ok (c : Client) (conn : Connection)
  | err (e : Error)
  | unwrapNone
deriving DecidableEq

/-- The `for (i, host) in config.host.iter().enumerate()` loop of
`connect`, with the running index `i` and the `error` accumulator made
explicit.  A `make_tls_connect` failure is propagated by `?` (wrapped as
`Error::tls`), ending the whole loop; a `connect_once` success returns;
a `connect_once` failure is stored in `error` and the loop advances. -/
def connect_loop (env : Env) (cfg : Config) :
    Nat → List Host → Option Error → ConnectResult
  | _, [], none => .unwrapNone
  | _, [], some e => .err e
  | i, h :: rest, _err =>
    match env.makeTls (hostnameOf h) with
    | .error e => .err (Error.tls e)
    | .ok tls =>
      match connect_once env i tls cfg with
      | .ok (c, conn) => .ok c conn
      | .error e => connect_loop env cfg (i + 1) rest (some e)

/-- Rust `connect(tls, config)`: the two up-front configuration checks, then
the per-host loop starting at index 0 with no recorded error. -/
def connect (env : Env) (cfg : Config) : ConnectResult :=
  if cfg.host = [] then
    .err (Error.config "host missing")
  else if cfg.port.length > 1 ∧ cfg.port.length ≠ cfg.host.length then
    .err (Error.config "invalid number of ports")
  else
    connect_loop env cfg 0 cfg.host none

/-!
Embedding of the OpenSSL adapter's channel-binding derivation
(`src/postgres-openssl/src/lib.rs`, `tls_server_end_point` and
`TlsConnectFuture::poll`).  OpenSSL's NID table, certificates and digest
computation are external; they are modelled by the `Nid` enumeration
(the digest NIDs the source names, plus an opaque remainder), a
`Certificate` record carrying the signature-algorithm NID and the
outcome of `cert.digest(md)`, and a caller-supplied
`sigAlgs : Nid → Option SignatureAlgorithms` lookup standing for
OpenSSL's `Nid::signature_algorithms` table. -/

/-- OpenSSL `Nid`, restricted to the digest identifiers the adapter
distinguishes; every other NID is `otherNid`. -/
inductive Nid
  | md5
  | sha1
  | sha224
  | sha256
  | sha384
  | sha512
  | otherNid (n : Nat)
deriving DecidableEq

/-- OpenSSL `MessageDigest` handles obtainable through
`MessageDigest::from_nid` or `MessageDigest::sha256()`. -/
inductive MessageDigest
  | md5
  | sha1
  | sha224
  | sha256
  | sha384
  | sha512
deriving DecidableEq

/-- Rust `MessageDigest::from_nid`: the digest handle for a digest NID,
`None` for a NID that names no digest. -/
def MessageDigest.from_nid : Nid → Option MessageDigest
  | .md5 => some .md5
  | .sha1 => some .sha1
  | .sha224 => some .sha224
  | .sha256 => some .sha256
  | .sha384 => some .sha384
  | .sha512 => some .sha512
  | .otherNid _ => none

/-- The record returned by `Nid::signature_algorithms`; only its
`digest` component is read by the adapter. -/
structure SignatureAlgorithms where
  digest : Nid
deriving DecidableEq

/-- A peer certificate: `sigAlgNid` is
`cert.signature_algorithm().object().nid()`, and `digestResult md` is
the outcome of `cert.digest(md)` (a fallible OpenSSL call yielding the
digest bytes). -/
structure Certificate where
  sigAlgNid : Nid
  digestResult : MessageDigest → Except Nat (List Nat)

/-- The state of the negotiated SSL session visible through `SslRef`:
the optional peer certificate. -/
structure SslInfo where
  peerCertificate : Option Certificate

/-- Rust `Result::ok()`: forget the error of an `Except`. -/
def exceptToOption : Except ε α → Option α
  | .ok a => some a
  | .error _ => none

/-- Rust `tls_server_end_point(ssl)`: peer certificate (absent ⇒ `None`),
its signature-algorithm NID, the `signature_algorithms` lookup (absent
⇒ `None`), digest selection with the MD5/SHA1 → SHA-256 substitution
(`from_nid` failure ⇒ `None`), and finally `cert.digest(md).ok()`. -/
def tls_server_end_point (sigAlgs : Nid → Option SignatureAlgorithms)
    (ssl : SslInfo) : Option (List Nat) := do
  let cert ← ssl.peerCertificate
  let algo_nid := cert.sigAlgNid
  let signature_algorithms ← sigAlgs algo_nid
  let md ← match signature_algorithms.digest with
    | Nid.md5 => some MessageDigest.sha256
    | Nid.sha1 => some MessageDigest.sha256
    | nid => MessageDigest.from_nid nid
  exceptToOption (cert.digestResult md)

/-- Rust `ChannelBinding`: `none()` or `tls_server_end_point(buf)`. -/
inductive ChannelBinding
  | noBinding
  | tlsServerEndPoint (buf : List Nat)
deriving DecidableEq

/-- A `Poll` outcome of the inner `ConnectAsync` handshake future (and
of `TlsConnectFuture` itself). -/
inductive Poll (α : Type) (ε : Type)
  | notReady
  | ready (a : α)
  | error (e : ε)
deriving DecidableEq

/-- Rust `TlsConnectFuture::poll`: `try_ready!` the inner handshake, then
attach the channel binding computed by `tls_server_end_point` (bytes ⇒
`tls_server_end_point` binding, `None` ⇒ `none()` — never an error). -/
def TlsConnectFuture.poll (sigAlgs : Nid → Option SignatureAlgorithms)
    (inner : Poll SslInfo Nat) : Poll (SslInfo × ChannelBinding) Nat :=
  match inner with
  | .notReady => .notReady
  | .error e => .error e
  | .ready stream =>
    let channel_binding :=
      match tls_server_end_point sigAlgs stream with
      | some buf => ChannelBinding.tlsServerEndPoint buf
      | none => ChannelBinding.noBinding
    .ready (stream, channel_binding)

/-!
Proof-side helper: the outcome of one iteration of the per-host loop,
combining the `make_tls_connect` call and the `connect_once` attempt for
one host. -/

/-- Outcome of one host iteration: a factory error (propagated by `?`),
a successful attempt, or a failed attempt whose error is recorded. -/
inductive StepRes
  | abort (e : FactoryErr)
  | success (c : Client) (conn : Connection)
  | fail (e : Error)
deriving DecidableEq

/-- One iteration of the per-host loop of `connect`, for host `h` at
index `i`. -/
def step (env : Env) (cfg : Config) (i : Nat) (h : Host) : StepRes :=
  match env.makeTls (hostnameOf h) with
  | .error e => .abort e
  | .ok tls =>
    match connect_once env i tls cfg with
    | .ok (c, conn) => .success c conn
    | .error e => .fail e

/-!
Concrete environments and configurations used to evaluate the embedding
on closed inputs. -/

/-- A two-TCP-host configuration without the write check. -/
def cfgTwo : Config :=
  ⟨[Host.tcp "a", Host.tcp "b"], [], TargetSessionAttrs.any⟩

/-- A two-TCP-host configuration demanding write-capable sessions. -/
def cfgRW : Config :=
  ⟨[Host.tcp "a", Host.tcp "b"], [], TargetSessionAttrs.readWrite⟩

/-- An empty-host configuration. -/
def cfgEmpty : Config := ⟨[], [1, 2], TargetSessionAttrs.any⟩

/-- A configuration with one host but two ports. -/
def cfgMismatch : Config := ⟨[Host.tcp "a"], [1, 2], TargetSessionAttrs.any⟩

/-- Environment whose factory rejects host "a" but accepts host "b",
with every later stage succeeding. -/
def envFactoryFail : Env :=
  ⟨fun d => if d = "a" then .error 7 else .ok 2,
   fun _ => .ok 0,
   fun _ _ _ => .ok (5, 6),
   fun _ => []⟩

/-- Environment where the factory always succeeds, the attempt at index
0 fails in the raw handshake and the attempt at index 1 succeeds. -/
def envFirstFails : Env :=
  ⟨fun _ => .ok 1,
   fun _ => .ok 0,
   fun _ _ i => if i = 0 then .error (Error.protoErr 0) else .ok (5, 6),
   fun _ => []⟩

/-- Environment where every attempt fails in the raw handshake with an
index-tagged error. -/
def envAllFail : Env :=
  ⟨fun _ => .ok 1,
   fun _ => .ok 0,
   fun _ _ i => .error (Error.protoErr i),
   fun _ => []⟩

/-- Environment whose verification query reports `transaction_read_only
= on` (after one non-row message). -/
def envReadOnly : Env :=
  ⟨fun _ => .ok 1,
   fun _ => .ok 0,
   fun _ _ _ => .ok (5, 6),
   fun _ => [.ok .otherMsg, .ok (.row (.ok (some "on")))]⟩

/-- Environment whose verification query reports a NULL first column. -/
def envNullCol : Env :=
  ⟨fun _ => .ok 1,
   fun _ => .ok 0,
   fun _ _ _ => .ok (5, 6),
   fun _ => [.ok (.row (.ok none))]⟩

/-- Environment whose verification query stream ends without any row. -/
def envNoRow : Env :=
  ⟨fun _ => .ok 1,
   fun _ => .ok 0,
   fun _ _ _ => .ok (5, 6),
   fun _ => [.ok .otherMsg]⟩

/-- Environment whose verification query stream is empty. -/
def envEmptyStream : Env :=
  ⟨fun _ => .ok 1,
   fun _ => .ok 0,
   fun _ _ _ => .ok (5, 6),
   fun _ => []⟩

/-- A signature-algorithms table mapping one NID to an MD5 digest and
everything else to nothing. -/
def sigAlgsW : Nid → Option SignatureAlgorithms
  | .otherNid 0 => some ⟨Nid.md5⟩
  | _ => none

/-- A certificate whose SHA-256 digest is `[1, 2, 3]`. -/
def certW : Certificate :=
  ⟨Nid.otherNid 0,
   fun md => if md = MessageDigest.sha256 then .ok [1, 2, 3] else .ok [9]⟩

/-!
General lemmas about the loop. -/

/-- Unfolding one iteration of the per-host loop in terms of `step`. -/
theorem connect_loop_cons (env : Env) (cfg : Config) (i : Nat) (h : Host)
    (rest : List Host) (err : Option Error) :
    connect_loop env cfg i (h :: rest) err =
      match step env cfg i h with
      | .abort e => .err (Error.tls e)
      | .success c conn => .ok c conn
      | .fail e => connect_loop env cfg (i + 1) rest (some e) := by
  cases hm : env.makeTls (hostnameOf h) with
  | error e => simp only [connect_loop, step, hm]
  | ok tls =>
    cases hc : connect_once env i tls cfg with
    | error e => simp only [connect_loop, step, hm, hc]
    | ok p =>
      obtain ⟨c, conn⟩ := p
      simp only [connect_loop, step, hm, hc]

/-- If every host up to position `k` fails its attempt and the host at
position `k` succeeds, the loop returns that success. -/
theorem connect_loop_success (env : Env) (cfg : Config) :
    ∀ (hosts : List Host) (i : Nat) (err : Option Error) (k : Nat)
      (c : Client) (conn : Connection),
      k < hosts.length →
      (∀ j, j < k → ∃ e, step env cfg (i + j) (hosts.getD j default) = .fail e) →
      step env cfg (i + k) (hosts.getD k default) = .success c conn →
      connect_loop env cfg i hosts err = .ok c conn := by
  intro hosts
  induction hosts with
  | nil =>
    intro i err k c conn hk _ _
    exact absurd hk (by simp)
  | cons h rest ih =>
    intro i err k c conn hk hfail hsucc
    rw [connect_loop_cons]
    cases k with
    | zero =>
      simp only [List.getD_cons_zero, Nat.add_zero] at hsucc
      rw [hsucc]
    | succ k' =>
      obtain ⟨e, he⟩ := hfail 0 (Nat.succ_pos k')
      simp only [List.getD_cons_zero, Nat.add_zero] at he
      rw [he]
      refine ih (i + 1) (some e) k' c conn (Nat.lt_of_succ_lt_succ hk) ?_ ?_
      · intro j hj
        obtain ⟨e', he'⟩ := hfail (j + 1) (Nat.succ_lt_succ hj)
        refine ⟨e', ?_⟩
        have harith : i + (j + 1) = i + 1 + j := by omega
        rw [harith, List.getD_cons_succ] at he'
        exact he'
      · have harith : i + (k' + 1) = i + 1 + k' := by omega
        rw [harith, List.getD_cons_succ] at hsucc
        exact hsucc

/-- If every host attempt fails, the loop returns the error of the last
attempt. -/
theorem connect_loop_exhausted (env : Env) (cfg : Config) :
    ∀ (hosts : List Host) (i : Nat) (err : Option Error) (errs : Nat → Error),
      hosts ≠ [] →
      (∀ j, j < hosts.length →
        step env cfg (i + j) (hosts.getD j default) = .fail (errs (i + j))) →
      connect_loop env cfg i hosts err = .err (errs (i + hosts.length - 1)) := by
  intro hosts
  induction hosts with
  | nil => intro i err errs hne _; exact absurd rfl hne
  | cons h rest ih =>
    intro i err errs _ hfail
    have h0 := hfail 0 (Nat.succ_pos _)
    simp only [List.getD_cons_zero, Nat.add_zero] at h0
    rw [connect_loop_cons, h0]
    cases rest with
    | nil =>
      show connect_loop env cfg (i + 1) [] (some (errs i)) = _
      simp only [List.length_cons, List.length_nil]
      rfl
    | cons h' rest' =>
      have hfail' : ∀ j, j < (h' :: rest').length →
          step env cfg (i + 1 + j) ((h' :: rest').getD j default) =
            StepRes.fail (errs (i + 1 + j)) := by
        intro j hj
        have hstep := hfail (j + 1) (Nat.succ_lt_succ hj)
        have harith : i + (j + 1) = i + 1 + j := by omega
        rw [harith, List.getD_cons_succ] at hstep
        exact hstep
      have hrec := ih (i + 1) (some (errs i)) errs (by simp) hfail'
      show connect_loop env cfg (i + 1) (h' :: rest') (some (errs i)) = _
      rw [hrec]
      have harith : i + 1 + (h' :: rest').length - 1 =
          i + (h :: h' :: rest').length - 1 := by
        simp only [List.length_cons]
        omega
      rw [harith]

/-- The loop with a non-empty host list (or an already-recorded error)
always returns `ok` or `err`, never the `unwrap` panic. -/
theorem connect_loop_total (env : Env) (cfg : Config) :
    ∀ (hosts : List Host) (i : Nat) (err : Option Error),
      hosts ≠ [] ∨ err ≠ none →
      (∃ c conn, connect_loop env cfg i hosts err = .ok c conn) ∨
      (∃ e, connect_loop env cfg i hosts err = .err e) := by
  intro hosts
  induction hosts with
  | nil =>
    intro i err hne
    match err with
    | none => simp at hne
    | some e => exact Or.inr ⟨e, rfl⟩
  | cons h rest ih =>
    intro i err _
    rw [connect_loop_cons]
    cases hs : step env cfg i h with
    | abort e => exact Or.inr ⟨Error.tls e, rfl⟩
    | success c conn => exact Or.inl ⟨c, conn, rfl⟩
    | fail e => exact ih (i + 1) (some e) (Or.inr (by simp))

/-- Scanning a stream whose messages are all non-row messages up to the
first row reduces `check_read_only` to the decision on that row. -/
theorem check_read_only_first_row (pre rest : List (Except Error SimpleQueryMessage))
    (v : Option String)
    (hpre : ∀ m ∈ pre, m = Except.ok SimpleQueryMessage.otherMsg) :
    check_read_only (pre ++ Except.ok (SimpleQueryMessage.row (.ok v)) :: rest) =
      if v = some "on" then
        .error (Error.connectErr IoErrorKind.permissionDenied
          "database does not allow writes")
      else
        .ok () := by
  induction pre with
  | nil => rfl
  | cons m pre' ih =>
    have hm : m = Except.ok SimpleQueryMessage.otherMsg := hpre m (by simp)
    subst hm
    exact ih (fun m h => hpre m (List.mem_cons_of_mem _ h))

/-- Scanning a stream with no row at all yields the unexpected-message
error. -/
theorem check_read_only_no_row (ms : List (Except Error SimpleQueryMessage))
    (hms : ∀ m ∈ ms, m = Except.ok SimpleQueryMessage.otherMsg) :
    check_read_only ms = .error Error.unexpectedMessage := by
  induction ms with
  | nil => rfl
  | cons m ms' ih =>
    have hm : m = Except.ok SimpleQueryMessage.otherMsg := hms m (by simp)
    subst hm
    exact ih (fun m h => hms m (List.mem_cons_of_mem _ h))

/-- Evaluation of `connect_once` once its socket and raw-handshake
stages succeed: the result is decided by the write check (when
demanded). -/
theorem connect_once_eq (env : Env) (i : Nat) (tls : TlsConn) (cfg : Config)
    (socket : Socket) (client : Client) (conn : Connection)
    (hsock : env.connectSocket i = .ok socket)
    (hraw : env.connectRaw socket tls i = .ok (client, conn)) :
    connect_once env i tls cfg =
      if cfg.target_session_attrs = TargetSessionAttrs.readWrite then
        match check_read_only (env.simpleQuery client) with
        | .ok _ => .ok (client, conn)
        | .error e => .error e
      else
        .ok (client, conn) := by
  simp only [connect_once, hsock, hraw]
  by_cases ht : cfg.target_session_attrs = TargetSessionAttrs.readWrite
  · rw [if_pos ht, if_pos ht]
    cases check_read_only (env.simpleQuery client) with
    | ok u => rfl
    | error e => rfl
  · rw [if_neg ht, if_neg ht]

/-!
The claims. -/

/-- C8: for every configuration whose host list is empty, `connect`
fails with the configuration error "host missing"; the conclusion holds
for every environment, so no factory call, socket connection or
handshake is performed. -/
theorem connect_empty_host_list (cfg : Config) (hempty : cfg.host = []) :
    ∀ env : Env, connect env cfg = .err (Error.config "host missing") := by
  intro env
  unfold connect
  rw [if_pos hempty]

theorem connect_empty_host_list_witness :
    connect envFirstFails cfgEmpty = .err (Error.config "host missing") :=
  connect_empty_host_list cfgEmpty rfl envFirstFails

/-- C9: for every configuration with more than one port and a port
count different from the host count, `connect` fails with a
configuration error; the conclusion holds for every environment, so no
I/O is performed.  (When the host list is also empty the message is
"host missing", otherwise "invalid number of ports".) -/
theorem connect_port_count_mismatch (cfg : Config)
    (h1 : cfg.port.length > 1) (h2 : cfg.port.length ≠ cfg.host.length) :
    ∀ env : Env, ∃ msg, connect env cfg = .err (Error.config msg) := by
  intro env
  unfold connect
  by_cases hh : cfg.host = []
  · exact ⟨"host missing", by rw [if_pos hh]⟩
  · exact ⟨"invalid number of ports", by rw [if_neg hh, if_pos ⟨h1, h2⟩]⟩

theorem connect_port_count_mismatch_witness :
    ∃ msg, connect envFirstFails cfgMismatch = .err (Error.config msg) :=
  connect_port_count_mismatch cfgMismatch (by decide) (by decide) envFirstFails

/-- C10: `connect` always returns a well-defined result — an `ok` or an
`err`, never the `unwrapNone` value that models the `error.unwrap()`
panic: whenever the per-host loop completes without success, the host
list was non-empty and every failed attempt stored `Some(error)`. -/
theorem connect_never_panics (env : Env) (cfg : Config) :
    (∃ c conn, connect env cfg = .ok c conn) ∨
    (∃ e, connect env cfg = .err e) := by
  unfold connect
  by_cases hh : cfg.host = []
  · rw [if_pos hh]
    exact Or.inr ⟨_, rfl⟩
  · rw [if_neg hh]
    by_cases hp : cfg.port.length > 1 ∧ cfg.port.length ≠ cfg.host.length
    · rw [if_pos hp]
      exact Or.inr ⟨_, rfl⟩
    · rw [if_neg hp]
      exact connect_loop_total env cfg cfg.host 0 none (Or.inl hh)

/-- C2: if the attempts for every host before position `k` fail and the
attempt at position `k` succeeds with `(c, conn)`, then `connect`
returns exactly that client and connection.  The hosts after position
`k` are completely unconstrained, so the result does not depend on them:
no further attempt is made after the first success, and hosts are tried
strictly in configuration order. -/
theorem connect_first_success (env : Env) (cfg : Config) (k : Nat)
    (c : Client) (conn : Connection)
    (hports : ¬(cfg.port.length > 1 ∧ cfg.port.length ≠ cfg.host.length))
    (hk : k < cfg.host.length)
    (hfail : ∀ j, j < k → ∃ e, step env cfg j (cfg.host.getD j default) = .fail e)
    (hsucc : step env cfg k (cfg.host.getD k default) = .success c conn) :
    connect env cfg = .ok c conn := by
  have hne : cfg.host ≠ [] := by
    intro hnil
    rw [hnil] at hk
    simp at hk
  unfold connect
  rw [if_neg hne, if_neg hports]
  refine connect_loop_success env cfg cfg.host 0 none k c conn hk ?_ ?_
  · intro j hj
    simpa using hfail j hj
  · simpa using hsucc

theorem connect_first_success_witness :
    connect envFirstFails cfgTwo = .ok 5 6 :=
  connect_first_success envFirstFails cfgTwo 1 5 6 (by decide) (by decide)
    (by
      intro j hj
      have hj0 : j = 0 := by omega
      subst hj0
      exact ⟨Error.protoErr 0, rfl⟩)
    rfl

/-- C3: if every host attempt fails, `connect` fails with exactly the
error of the last attempted host — the errors of the earlier attempts
are discarded. -/
theorem connect_exhausted_last_error (env : Env) (cfg : Config)
    (errs : Nat → Error)
    (hne : cfg.host ≠ [])
    (hports : ¬(cfg.port.length > 1 ∧ cfg.port.length ≠ cfg.host.length))
    (hfail : ∀ j, j < cfg.host.length →
      step env cfg j (cfg.host.getD j default) = .fail (errs j)) :
    connect env cfg = .err (errs (cfg.host.length - 1)) := by
  unfold connect
  rw [if_neg hne, if_neg hports]
  have hloop := connect_loop_exhausted env cfg cfg.host 0 none errs hne ?_
  · simpa using hloop
  · intro j hj
    simpa using hfail j (by simpa using hj)

theorem connect_exhausted_last_error_witness :
    connect envAllFail cfgTwo = .err (Error.protoErr 1) :=
  connect_exhausted_last_error envAllFail cfgTwo (fun j => Error.protoErr j)
    (by decide) (by decide) (by decide)

/-- C1, counterexample: the factory of `envFactoryFail` rejects host
"a", and the attempt for host "b" would succeed, yet `connect` returns
the factory error: a factory error aborts the whole operation rather
than advancing to the next host. -/
theorem connect_factory_error_counterexample :
    connect envFactoryFail cfgTwo = .err (Error.tls 7) ∧
    step envFactoryFail cfgTwo 1 (Host.tcp "b") = .success 5 6 := by
  constructor <;> decide

/-- C1, amended: when `make_tls_connect` fails for the host currently
being attempted, the per-host loop returns immediately with that error
wrapped as `Error::tls`; the remaining hosts are not attempted and any
previously recorded error is discarded. -/
theorem connect_factory_error_aborts (env : Env) (cfg : Config) (i : Nat)
    (err : Option Error) (h : Host) (rest : List Host) (e : FactoryErr)
    (hmk : env.makeTls (hostnameOf h) = .error e) :
    connect_loop env cfg i (h :: rest) err = .err (Error.tls e) := by
  rw [connect_loop_cons]
  unfold step
  rw [hmk]

theorem connect_factory_error_aborts_witness :
    connect_loop envFactoryFail cfgTwo 0 [Host.tcp "a", Host.tcp "b"] none =
      .err (Error.tls 7) :=
  connect_factory_error_aborts envFactoryFail cfgTwo 0 none (Host.tcp "a")
    [Host.tcp "b"] 7 rfl

/-- C5: under `target_session_attrs = ReadWrite`, when the socket and
raw-handshake stages succeed and the first row of the verification query
has first column `"on"`, `connect_once` fails with the permission-denied
connect error; and for any host whose factory call produced this
connector, the per-host loop records that error and advances to the next
host. -/
theorem connect_once_read_only_rejected (env : Env) (i : Nat) (tls : TlsConn)
    (cfg : Config) (socket : Socket) (client : Client) (conn : Connection)
    (pre rest : List (Except Error SimpleQueryMessage))
    (hattrs : cfg.target_session_attrs = TargetSessionAttrs.readWrite)
    (hsock : env.connectSocket i = .ok socket)
    (hraw : env.connectRaw socket tls i = .ok (client, conn))
    (hq : env.simpleQuery client =
      pre ++ Except.ok (SimpleQueryMessage.row (.ok (some "on"))) :: rest)
    (hpre : ∀ m ∈ pre, m = Except.ok SimpleQueryMessage.otherMsg) :
    connect_once env i tls cfg =
      .error (Error.connectErr IoErrorKind.permissionDenied
        "database does not allow writes") ∧
    ∀ (h : Host) (hosts : List Host) (err : Option Error),
      env.makeTls (hostnameOf h) = .ok tls →
      connect_loop env cfg i (h :: hosts) err =
        connect_loop env cfg (i + 1) hosts
          (some (Error.connectErr IoErrorKind.permissionDenied
            "database does not allow writes")) := by
  have hco : connect_once env i tls cfg =
      .error (Error.connectErr IoErrorKind.permissionDenied
        "database does not allow writes") := by
    rw [connect_once_eq env i tls cfg socket client conn hsock hraw,
      if_pos hattrs, hq, check_read_only_first_row pre rest (some "on") hpre,
      if_pos rfl]
  refine ⟨hco, ?_⟩
  intro h hosts err hmk
  have hstep : step env cfg i h =
      StepRes.fail (Error.connectErr IoErrorKind.permissionDenied
        "database does not allow writes") := by
    unfold step
    rw [hmk]
    show (match connect_once env i tls cfg with
      | .ok (c, conn) => StepRes.success c conn
      | .error e => StepRes.fail e) = _
    rw [hco]
  rw [connect_loop_cons, hstep]

theorem connect_once_read_only_rejected_witness :
    connect_once envReadOnly 0 1 cfgRW =
      .error (Error.connectErr IoErrorKind.permissionDenied
        "database does not allow writes") :=
  (connect_once_read_only_rejected envReadOnly 0 1 cfgRW 0 5 6
    [Except.ok SimpleQueryMessage.otherMsg] [] rfl rfl rfl rfl (by decide)).1

/-- C6: under `target_session_attrs = ReadWrite`, when the socket and
raw-handshake stages succeed and the first row of the verification query
has a first column different from `"on"` (including a NULL column),
`connect_once` succeeds with the client and connection from the raw
handshake. -/
theorem connect_once_writable_accepted (env : Env) (i : Nat) (tls : TlsConn)
    (cfg : Config) (socket : Socket) (client : Client) (conn : Connection)
    (pre rest : List (Except Error SimpleQueryMessage)) (v : Option String)
    (hattrs : cfg.target_session_attrs = TargetSessionAttrs.readWrite)
    (hsock : env.connectSocket i = .ok socket)
    (hraw : env.connectRaw socket tls i = .ok (client, conn))
    (hq : env.simpleQuery client =
      pre ++ Except.ok (SimpleQueryMessage.row (.ok v)) :: rest)
    (hpre : ∀ m ∈ pre, m = Except.ok SimpleQueryMessage.otherMsg)
    (hv : v ≠ some "on") :
    connect_once env i tls cfg = .ok (client, conn) := by
  rw [connect_once_eq env i tls cfg socket client conn hsock hraw,
    if_pos hattrs, hq, check_read_only_first_row pre rest v hpre, if_neg hv]

theorem connect_once_writable_accepted_witness :
    connect_once envNullCol 0 1 cfgRW = .ok (5, 6) :=
  connect_once_writable_accepted envNullCol 0 1 cfgRW 0 5 6 [] [] none
    rfl rfl rfl rfl (by decide) (by decide)

/-- C7, counterexample: under `target_session_attrs = ReadWrite`, with
every earlier stage succeeding, a verification stream that ends without
ever producing a row makes `connect_once` fail with
`Error::unexpected_message()` — the attempt is not accepted. -/
theorem connect_once_no_row_counterexample :
    connect_once envEmptyStream 0 1 cfgRW = .error Error.unexpectedMessage := by
  rfl

/-- C7, amended: under `target_session_attrs = ReadWrite`, when the
socket and raw-handshake stages succeed but the verification stream
contains no row of the expected format (it ends after only non-row
messages), the attempt fails with the unexpected-message protocol error
(which the orchestrator records before advancing to the next host). -/
theorem connect_once_no_row_rejected (env : Env) (i : Nat) (tls : TlsConn)
    (cfg : Config) (socket : Socket) (client : Client) (conn : Connection)
    (ms : List (Except Error SimpleQueryMessage))
    (hattrs : cfg.target_session_attrs = TargetSessionAttrs.readWrite)
    (hsock : env.connectSocket i = .ok socket)
    (hraw : env.connectRaw socket tls i = .ok (client, conn))
    (hq : env.simpleQuery client = ms)
    (hms : ∀ m ∈ ms, m = Except.ok SimpleQueryMessage.otherMsg) :
    connect_once env i tls cfg = .error Error.unexpectedMessage := by
  rw [connect_once_eq env i tls cfg socket client conn hsock hraw,
    if_pos hattrs, hq, check_read_only_no_row ms hms]

theorem connect_once_no_row_rejected_witness :
    connect_once envNoRow 0 1 cfgRW = .error Error.unexpectedMessage :=
  connect_once_no_row_rejected envNoRow 0 1 cfgRW 0 5 6
    [Except.ok SimpleQueryMessage.otherMsg] rfl rfl rfl rfl (by decide)

/-- C4: channel-binding derivation of the OpenSSL adapter.  (1) When
the certificate's signature algorithm maps to the legacy MD5 or SHA1
digest, the binding is the certificate digest computed with the strong
default SHA-256.  (2) Without a peer certificate the binding is "none"
and the handshake still succeeds.  (3) When the signature algorithm has
no digest mapping — the `signature_algorithms` lookup fails — the
binding is "none" and the handshake still succeeds.  (4) Likewise when
the lookup succeeds but `MessageDigest::from_nid` has no digest for it.
(5) Otherwise the binding is the certificate digest bytes computed with
the digest matching the signature algorithm family. -/
theorem tls_channel_binding (sigAlgs : Nid → Option SignatureAlgorithms) :
    (∀ (cert : Certificate) (sa : SignatureAlgorithms) (b : List Nat),
      sigAlgs cert.sigAlgNid = some sa →
      (sa.digest = Nid.md5 ∨ sa.digest = Nid.sha1) →
      cert.digestResult MessageDigest.sha256 = .ok b →
      tls_server_end_point sigAlgs ⟨some cert⟩ = some b) ∧
    (TlsConnectFuture.poll sigAlgs (Poll.ready ⟨none⟩) =
      Poll.ready (⟨none⟩, ChannelBinding.noBinding)) ∧
    (∀ (cert : Certificate),
      sigAlgs cert.sigAlgNid = none →
      TlsConnectFuture.poll sigAlgs (Poll.ready ⟨some cert⟩) =
        Poll.ready (⟨some cert⟩, ChannelBinding.noBinding)) ∧
    (∀ (cert : Certificate) (sa : SignatureAlgorithms),
      sigAlgs cert.sigAlgNid = some sa →
      sa.digest ≠ Nid.md5 → sa.digest ≠ Nid.sha1 →
      MessageDigest.from_nid sa.digest = none →
      TlsConnectFuture.poll sigAlgs (Poll.ready ⟨some cert⟩) =
        Poll.ready (⟨some cert⟩, ChannelBinding.noBinding)) ∧
    (∀ (cert : Certificate) (sa : SignatureAlgorithms) (md : MessageDigest)
      (b : List Nat),
      sigAlgs cert.sigAlgNid = some sa →
      sa.digest ≠ Nid.md5 → sa.digest ≠ Nid.sha1 →
      MessageDigest.from_nid sa.digest = some md →
      cert.digestResult md = .ok b →
      tls_server_end_point sigAlgs ⟨some cert⟩ = some b) := by
  refine ⟨?_, rfl, ?_, ?_, ?_⟩
  · intro cert sa b hsa hleg hdig
    rcases hleg with hd | hd <;>
      simp [tls_server_end_point, hsa, hd, hdig, exceptToOption]
  · intro cert hsa
    simp [TlsConnectFuture.poll, tls_server_end_point, hsa]
  · intro cert sa hsa h1 h2 hmd
    have hnone : tls_server_end_point sigAlgs ⟨some cert⟩ = none := by
      cases hd : sa.digest
      case md5 => exact absurd hd h1
      case sha1 => exact absurd hd h2
      all_goals (
        rw [hd] at hmd
        simp [tls_server_end_point, hsa, hd, hmd, MessageDigest.from_nid] at hmd ⊢)
    simp [TlsConnectFuture.poll, hnone]
  · intro cert sa md b hsa h1 h2 hmd hdig
    cases hd : sa.digest
    case md5 => exact absurd hd h1
    case sha1 => exact absurd hd h2
    case otherNid n =>
      rw [hd] at hmd
      simp [MessageDigest.from_nid] at hmd
    all_goals (
      rw [hd] at hmd
      simp only [MessageDigest.from_nid, Option.some.injEq] at hmd
      subst hmd
      simp [tls_server_end_point, hsa, hd, hdig, exceptToOption,
        MessageDigest.from_nid])

theorem tls_channel_binding_witness :
    tls_server_end_point sigAlgsW ⟨some certW⟩ = some [1, 2, 3] :=
  (tls_channel_binding sigAlgsW).1 certW ⟨Nid.md5⟩ [1, 2, 3] rfl
    (Or.inl rfl) rfl

end RustPostgres
